import Mathlib

/-!
Shallow embedding of src/asana-field-migration/asana-field-migrator.js.

The JavaScript program migrates the values of one Asana custom field to
another custom field, driven by a CSV mapping.  The pure logic is embedded
as Lean functions; the network is modelled explicitly: the paginated fetch
receives the list of responses the server returns, and the per-task update
receives the response its PUT request obtains.  The observable side effects
of the driver loop are collected in an event trace.
-/

namespace Asana

/-- JavaScript truthiness of an optional string value: `undefined` and the
empty string are falsy, every other string is truthy. -/
def jsTruthyStr : Option String → Bool
  | some s => s != ""
  | none => false

/-- JavaScript truthiness of an optional boolean, as tested by
`if (updateSuccess)` in `main`: `undefined` is falsy. -/
def jsTruthyBool : Option Bool → Bool
  | some b => b
  | none => false

/-- Modelled from the behaviour of the csv-parse option `trim: true`
(line 19): removes leading and trailing whitespace from a cell value.
Implemented structurally over the character list so that it evaluates. -/
def trimString (s : String) : String :=
  ⟨((s.data.dropWhile Char.isWhitespace).reverse.dropWhile Char.isWhitespace).reverse⟩

/-- One data row of the mapping CSV, holding the `old_value` and `new_value`
cells exactly as they appear in the file (not yet trimmed). -/
structure Row where
  old_value : String
  new_value : String
deriving DecidableEq

/-- The body of the `for (const row of records)` loop in `loadMapping`
(line 22): the assignment `mapping[row.old_value] = row.new_value` on the
object, viewed as an update of its lookup function.  The option
`trim: true` given to `parse` (line 19) trims every cell, so both cells
are trimmed here. -/
def assignRow (m : String → Option String) (row : Row) : String → Option String :=
  fun k => if k = (trimString row.old_value) then some (trimString row.new_value) else m k

/-- `loadMapping(csvFile)` (lines 17-25): parse the CSV with trimming,
start from the empty object `{}` and run the assignment loop over the
records in file order; the result is the lookup function of the built
object. -/
def loadMapping (records : List Row) : String → Option String :=
  records.foldl assignRow (fun _ => none)

theorem foldl_assignRow_of_no_match (rows : List Row) (m : String → Option String)
    (k : String) (h : ∀ r ∈ rows, (trimString r.old_value) ≠ k) :
    rows.foldl assignRow m k = m k := by
  induction rows generalizing m with
  | nil => rfl
  | cons r rs ih =>
    have hr : (trimString r.old_value) ≠ k := h r (List.mem_cons_self r rs)
    have hrs : ∀ r' ∈ rs, (trimString r'.old_value) ≠ k := fun r' hm => h r' (List.mem_cons_of_mem r hm)
    rw [List.foldl_cons, ih _ hrs]
    show (if k = (trimString r.old_value) then some (trimString r.new_value) else m k) = m k
    exact if_neg (fun hk => hr hk.symm)

theorem loadMapping_not_mem (rows : List Row) (k : String)
    (h : ∀ r ∈ rows, (trimString r.old_value) ≠ k) : loadMapping rows k = none :=
  foldl_assignRow_of_no_match rows _ k h

theorem loadMapping_append_singleton (rows : List Row) (r : Row) (k : String) :
    loadMapping (rows ++ [r]) k =
      if k = (trimString r.old_value) then some (trimString r.new_value) else loadMapping rows k := by
  unfold loadMapping
  rw [List.foldl_append]
  rfl

theorem loadMapping_last_wins (rows₁ : List Row) (r : Row) (rows₂ : List Row)
    (h : ∀ r' ∈ rows₂, (trimString r'.old_value) ≠ (trimString r.old_value)) :
    loadMapping (rows₁ ++ r :: rows₂) (trimString r.old_value) = some (trimString r.new_value) := by
  unfold loadMapping
  rw [List.foldl_append, List.foldl_cons, foldl_assignRow_of_no_match rows₂ _ _ h]
  show (if (trimString r.old_value) = (trimString r.old_value) then some (trimString r.new_value) else _) = _
  exact if_pos rfl

/-- The `enum_value` object of a custom field: only its `gid` is consulted
by the program. -/
structure EnumValue where
  gid : String
deriving DecidableEq

/-- One entry of the `custom_fields` array of a task: the field `gid` and
the optional `enum_value` descriptor (absent when the field is unset). -/
structure CustomField where
  gid : String
  enum_value : Option EnumValue
deriving DecidableEq

/-- A fetched task: `gid`, `name` and the `custom_fields` array, which the
response may omit altogether (modelled by `none`; `main` guards against
that with the check `!customFields` on line 156). -/
structure AsanaTask where
  gid : String
  name : String
  custom_fields : Option (List CustomField)
deriving DecidableEq

/-- One HTTP response to a page request inside `getAllProjectTasks`: the
`ok` flag and response text (used in the thrown error when not ok), the
task list `data.data`, and the value of `data.next_page.offset`
(`none` when `next_page` is absent or carries no offset field). -/
structure Page where
  ok : Bool
  text : String
  data : List AsanaTask
  next_offset : Option String
deriving DecidableEq

/-- Truthiness of `data.next_page && data.next_page.offset` (line 59): the
loop continues exactly when the response carries a truthy (non-empty)
offset string. -/
def hasCursor (p : Page) : Bool := jsTruthyStr p.next_offset

/-- `getAllProjectTasks(projectGid)` (lines 30-105): the `while (url)` loop.
The remote service is modelled by the list of responses it returns, the
i-th element answering the i-th request.  On success the function returns
the accumulated `tasks` array together with the number of requests issued
(the final `pageCount`); when a response is not `ok` it throws
`Failed to fetch tasks` with the response text, modelled by
`Except.error`.  An exhausted response list models a request that never
receives an answer; no theorem below reaches that case. -/
def getAllProjectTasks : List Page → Except String (List AsanaTask × Nat)
  | [] => Except.error "no response"
  | p :: rest =>
    if p.ok then
      if hasCursor p then
        match getAllProjectTasks rest with
        | Except.ok (ts, n) => Except.ok (p.data ++ ts, n + 1)
        | Except.error e => Except.error e
      else Except.ok (p.data, 1)
    else Except.error ("Failed to fetch tasks: " ++ p.text)

theorem getAllProjectTasks_ok : ∀ (front : List Page) (last : Page) (extra : List Page),
    (∀ p ∈ front, p.ok = true ∧ hasCursor p = true) →
    last.ok = true → hasCursor last = false →
    getAllProjectTasks (front ++ last :: extra) =
      Except.ok (((front ++ [last]).map Page.data).flatten, front.length + 1)
  | [], last, extra, _, hok, hlast => by
    simp [getAllProjectTasks, hok, hlast]
  | p :: ps, last, extra, hfront, hok, hlast => by
    have hp := hfront p (List.mem_cons_self p ps)
    have ihs := getAllProjectTasks_ok ps last extra
      (fun q hq => hfront q (List.mem_cons_of_mem p hq)) hok hlast
    simp [getAllProjectTasks, hp.1, hp.2, ihs]

theorem getAllProjectTasks_err : ∀ (front : List Page) (bad : Page) (rest : List Page),
    (∀ p ∈ front, p.ok = true ∧ hasCursor p = true) →
    bad.ok = false →
    getAllProjectTasks (front ++ bad :: rest) =
      Except.error ("Failed to fetch tasks: " ++ bad.text)
  | [], bad, rest, _, hbad => by
    simp [getAllProjectTasks, hbad]
  | p :: ps, bad, rest, hfront, hbad => by
    have hp := hfront p (List.mem_cons_self p ps)
    have ihs := getAllProjectTasks_err ps bad rest
      (fun q hq => hfront q (List.mem_cons_of_mem p hq)) hbad
    simp [getAllProjectTasks, hp.1, hp.2, ihs]

/-- The log line printed by `updateTaskCustomField` (lines 128-133). -/
inductive UpdateLog
  | success (taskGid newValue : String)
  | failure (taskGid text : String)
deriving DecidableEq

/-- The HTTP response received by the PUT request of
`updateTaskCustomField`. -/
structure Resp where
  ok : Bool
  text : String
deriving DecidableEq

/-- `updateTaskCustomField(taskGid, newValue)` (lines 110-134): issues one
PUT request; when the response is not ok it logs the failure with the
response text, otherwise it logs success.  Neither branch executes a
`return` statement, so in JavaScript the call evaluates to `undefined` on
both paths: the returned value is modelled as `none : Option Bool`. -/
def updateTaskCustomField (taskGid newValue : String) (resp : Resp) :
    UpdateLog × Option Bool :=
  (if resp.ok then UpdateLog.success taskGid newValue
   else UpdateLog.failure taskGid resp.text, none)

/-- Observable driver actions on the per-task path of `main`
(lines 150-206): the three logged skip outcomes, the update request to the
Updater, and the fixed `setTimeout` pause (milliseconds). -/
inductive Event
  | skipNoFields (taskGid : String)
  | skipNoValue (taskGid : String)
  | skipNoMapping (taskGid oldEnumGid : String)
  | updateCall (taskGid newEnumGid : String)
  | pause (ms : Nat)
deriving DecidableEq

/-- The value check `field.enum_value && field.enum_value.gid` (line 168):
the selected enum gid of a custom field, or `none` when the `enum_value`
descriptor is absent or its `gid` is falsy. -/
def enumValueGid (f : CustomField) : Option String :=
  match f.enum_value with
  | some ev => if ev.gid = "" then none else some ev.gid
  | none => none

/-- The inner field loop of `main` (lines 164-176): it breaks at the first
field whose `gid` equals `OLD_FIELD_GID`; `oldEnumGid` is set only when
that first matching field carries a truthy `enum_value` with a truthy
`gid`, and stays `null` otherwise (also when no field matches). -/
def findOldEnum (oldFieldGid : String) (fields : List CustomField) : Option String :=
  match fields.find? (fun f => f.gid == oldFieldGid) with
  | some f => enumValueGid f
  | none => none

/-- One iteration of the `for (const task of tasks)` loop in `main`
(lines 150-206): returns the emitted events, the increment of
`tasksAttempted` and the increment of `tasksUpdated` for that task.
`updResp` maps a task gid to the HTTP response its update PUT receives. -/
def processTask (oldFieldGid : String) (mapping : String → Option String)
    (updResp : String → Resp) (t : AsanaTask) : List Event × Nat × Nat :=
  match t.custom_fields with
  | none => ([Event.skipNoFields t.gid], 0, 0)
  | some fields =>
    if fields.length = 0 then ([Event.skipNoFields t.gid], 0, 0)
    else
      match findOldEnum oldFieldGid fields with
      | none => ([Event.skipNoValue t.gid], 0, 0)
      | some oldEnumGid =>
        if jsTruthyStr (mapping oldEnumGid) then
          let newEnumGid := (mapping oldEnumGid).getD ""
          let upd := updateTaskCustomField t.gid newEnumGid (updResp t.gid)
          ([Event.updateCall t.gid newEnumGid, Event.pause 200], 1,
            if jsTruthyBool upd.2 then 1 else 0)
        else ([Event.skipNoMapping t.gid oldEnumGid], 0, 0)

/-- The driver loop of `main` (lines 147-206) over the fetched task list:
accumulates the event trace and the counters `tasksAttempted` and
`tasksUpdated`, both starting at zero. -/
def mainLoop (oldFieldGid : String) (mapping : String → Option String)
    (updResp : String → Resp) (tasks : List AsanaTask) : List Event × Nat × Nat :=
  tasks.foldl
    (fun acc t =>
      let r := processTask oldFieldGid mapping updResp t
      (acc.1 ++ r.1, acc.2.1 + r.2.1, acc.2.2 + r.2.2))
    ([], 0, 0)

def isUpdateCall : Event → Bool
  | Event.updateCall _ _ => true
  | _ => false

def isPause : Event → Bool
  | Event.pause _ => true
  | _ => false

/-- Number of update requests the driver issued in a trace. -/
def countUpdateCalls (evs : List Event) : Nat := (evs.filter isUpdateCall).length

/-- Number of fixed pauses the driver performed in a trace. -/
def countPauses (evs : List Event) : Nat := (evs.filter isPause).length

/-- C1: the code contradicts the stated contract.  On a concrete run with
one task whose old value "101" is mapped to "201" and whose update PUT
succeeds, the updater logs success but returns `undefined` (it has no
`return` statement on either branch), so the driver counts the task as
attempted (`tasksAttempted = 1`) yet never increments `tasksUpdated`
(`tasksUpdated = 0`), despite the successful update. -/
theorem updater_success_not_counted :
    updateTaskCustomField "T1" "201" ⟨true, ""⟩ = (UpdateLog.success "T1" "201", none) ∧
      (mainLoop "OLD" (loadMapping [⟨"101", "201"⟩]) (fun _ => ⟨true, ""⟩)
          [⟨"T1", "A", some [⟨"OLD", some ⟨"101"⟩⟩]⟩]).2 = (1, 0) := by
  decide

/-- C2 counterexample: with the loaded mapping binding "101" to the empty
string, a task whose old selected value is "101" matches an entry of the
mapping, yet the driver issues no update call and does not increment the
attempted counter, because `if (mapping[oldEnumGid])` is falsy on the
empty string. -/
theorem mapped_empty_value_skips_update :
    loadMapping [⟨"101", ""⟩] "101" = some "" ∧
      countUpdateCalls (processTask "OLD" (loadMapping [⟨"101", ""⟩]) (fun _ => ⟨true, ""⟩)
          ⟨"T1", "A", some [⟨"OLD", some ⟨"101"⟩⟩]⟩).1 = 0 ∧
      (processTask "OLD" (loadMapping [⟨"101", ""⟩]) (fun _ => ⟨true, ""⟩)
          ⟨"T1", "A", some [⟨"OLD", some ⟨"101"⟩⟩]⟩).2.1 = 0 := by
  decide

/-- C2 (amended): for every task whose old field is present with a selected
value whose identifier is mapped by the loaded mapping to a non-empty new
identifier, the driver issues exactly one update call, carrying that
mapped identifier, and increments the attempted counter exactly once. -/
theorem mapped_task_single_update (og : String) (rows : List Row) (updResp : String → Resp)
    (t : AsanaTask) (fields : List CustomField) (v nv : String)
    (hf : t.custom_fields = some fields)
    (hv : findOldEnum og fields = some v)
    (hm : loadMapping rows v = some nv)
    (hnv : nv ≠ "") :
    (processTask og (loadMapping rows) updResp t).1.filter isUpdateCall =
        [Event.updateCall t.gid nv] ∧
      (processTask og (loadMapping rows) updResp t).2.1 = 1 := by
  have hne : ¬ fields.length = 0 := by
    intro h0
    rw [List.length_eq_zero] at h0
    subst h0
    simp [findOldEnum] at hv
  have htr : jsTruthyStr (loadMapping rows v) = true := by
    rw [hm]
    simpa [jsTruthyStr] using hnv
  have hget : (loadMapping rows v).getD "" = nv := by rw [hm]; rfl
  constructor
  · simp [processTask, hf, hne, hv, htr, hget, isUpdateCall]
  · simp [processTask, hf, hne, hv, htr]

/-- Witness for the amended C2 at a concrete input. -/
theorem mapped_task_single_update_witness :
    (processTask "OLD" (loadMapping [⟨"101", "201"⟩]) (fun _ => ⟨true, ""⟩)
          ⟨"T1", "A", some [⟨"OLD", some ⟨"101"⟩⟩]⟩).1.filter isUpdateCall =
        [Event.updateCall "T1" "201"] ∧
      (processTask "OLD" (loadMapping [⟨"101", "201"⟩]) (fun _ => ⟨true, ""⟩)
          ⟨"T1", "A", some [⟨"OLD", some ⟨"101"⟩⟩]⟩).2.1 = 1 :=
  mapped_task_single_update "OLD" [⟨"101", "201"⟩] (fun _ => ⟨true, ""⟩)
    ⟨"T1", "A", some [⟨"OLD", some ⟨"101"⟩⟩]⟩ [⟨"OLD", some ⟨"101"⟩⟩] "101" "201"
    rfl (by decide) (by decide) (by decide)

/-- C5 counterexample: a data row whose `old_value` cell is empty does
contribute an entry to the loaded mapping, under the empty-string key,
because the assignment loop has no emptiness filter. -/
theorem empty_old_value_row_contributes_entry :
    loadMapping [⟨"", "x"⟩] "" = some "x" := by
  decide

/-- C5 (amended): every data row contributes exactly one entry, keyed by
its trimmed `old_value` (rows with an empty `old_value` contribute an
entry under the empty-string key), binding it to the trimmed `new_value`
of the row; the row overrides any earlier binding of that key and leaves
every other key unchanged. -/
theorem loadMapping_row_contribution (rows : List Row) (r : Row) :
    loadMapping (rows ++ [r]) (trimString r.old_value) = some (trimString r.new_value) ∧
      ∀ k, k ≠ (trimString r.old_value) → loadMapping (rows ++ [r]) k = loadMapping rows k := by
  constructor
  · rw [loadMapping_append_singleton]
    exact if_pos rfl
  · intro k hk
    rw [loadMapping_append_singleton]
    exact if_neg hk

/-- Witness for the amended C5 at a concrete input. -/
theorem loadMapping_row_contribution_witness :
    loadMapping ([⟨"0", "9"⟩] ++ [⟨" a ", " b "⟩]) (trimString " a ") = some (trimString " b ") ∧
      loadMapping ([⟨"0", "9"⟩] ++ [⟨" a ", " b "⟩]) "z" = loadMapping [⟨"0", "9"⟩] "z" :=
  ⟨(loadMapping_row_contribution [⟨"0", "9"⟩] ⟨" a ", " b "⟩).1,
   (loadMapping_row_contribution [⟨"0", "9"⟩] ⟨" a ", " b "⟩).2 "z" (by decide)⟩

/-- C6: the Mapping Loader is a pure function of the parsed records, so two
files with identical content yield identical mapping tables; and when
several rows share the same (trimmed) `old_value`, the loaded mapping
binds that key to the (trimmed) `new_value` of the last such row. -/
theorem loadMapping_deterministic_last_wins :
    (∀ rows₁ rows₂ : List Row, rows₁ = rows₂ → loadMapping rows₁ = loadMapping rows₂) ∧
      ∀ (rows₁ : List Row) (r : Row) (rows₂ : List Row),
        (∀ r' ∈ rows₂, (trimString r'.old_value) ≠ (trimString r.old_value)) →
        loadMapping (rows₁ ++ r :: rows₂) (trimString r.old_value) =
          some (trimString r.new_value) :=
  ⟨fun _ _ h => h ▸ rfl, fun rows₁ r rows₂ h => loadMapping_last_wins rows₁ r rows₂ h⟩

/-- Witness for C6: duplicate key "101", the later row with value "202"
wins over the earlier row with value "201". -/
theorem loadMapping_deterministic_last_wins_witness :
    loadMapping [⟨"101", "201"⟩] = loadMapping [⟨"101", "201"⟩] ∧
      loadMapping ([⟨"101", "201"⟩] ++ ⟨"101", "202"⟩ :: []) (trimString "101") =
        some (trimString "202") :=
  ⟨loadMapping_deterministic_last_wins.1 [⟨"101", "201"⟩] [⟨"101", "201"⟩] rfl,
   loadMapping_deterministic_last_wins.2 [⟨"101", "201"⟩] ⟨"101", "202"⟩ [] (by decide)⟩

/-- C3: a task whose extracted old selected value is not a key produced by
the Mapping Loader (no row of the file has it as trimmed `old_value`) is
never passed to the Updater: the driver issues no update call for it. -/
theorem unmapped_task_never_updated (og : String) (rows : List Row) (updResp : String → Resp)
    (t : AsanaTask) (fields : List CustomField) (v : String)
    (hf : t.custom_fields = some fields)
    (hv : findOldEnum og fields = some v)
    (hnot : ∀ r ∈ rows, (trimString r.old_value) ≠ v) :
    countUpdateCalls (processTask og (loadMapping rows) updResp t).1 = 0 := by
  have hm : loadMapping rows v = none := loadMapping_not_mem rows v hnot
  have hne : ¬ fields.length = 0 := by
    intro h0
    rw [List.length_eq_zero] at h0
    subst h0
    simp [findOldEnum] at hv
  simp [processTask, hf, hne, hv, hm, jsTruthyStr, countUpdateCalls, isUpdateCall]

/-- Witness for C3 at a concrete input: old value "999" absent from the
mapping file, zero update calls. -/
theorem unmapped_task_never_updated_witness :
    countUpdateCalls (processTask "OLD" (loadMapping [⟨"101", "201"⟩]) (fun _ => ⟨true, ""⟩)
        ⟨"T4", "D", some [⟨"OLD", some ⟨"999"⟩⟩]⟩).1 = 0 :=
  unmapped_task_never_updated "OLD" [⟨"101", "201"⟩] (fun _ => ⟨true, ""⟩)
    ⟨"T4", "D", some [⟨"OLD", some ⟨"999"⟩⟩]⟩ [⟨"OLD", some ⟨"999"⟩⟩] "999"
    rfl (by decide) (by decide)

/-- C4: a task with no custom fields (array absent or empty), or whose old
field is found but carries no selected-value identifier, is never passed
to the Updater: no update call and no attempted increment. -/
theorem valueless_task_never_updated (og : String) (m : String → Option String)
    (updResp : String → Resp) (t : AsanaTask)
    (h : t.custom_fields = none ∨ t.custom_fields = some [] ∨
      ∃ fields f, t.custom_fields = some fields ∧
        fields.find? (fun g => g.gid == og) = some f ∧ enumValueGid f = none) :
    countUpdateCalls (processTask og m updResp t).1 = 0 ∧
      (processTask og m updResp t).2.1 = 0 := by
  rcases h with h | h | ⟨fields, f, hf, hfind, henum⟩
  · simp [processTask, h, countUpdateCalls, isUpdateCall]
  · simp [processTask, h, countUpdateCalls, isUpdateCall]
  · have hfo : findOldEnum og fields = none := by simp [findOldEnum, hfind, henum]
    by_cases h0 : fields.length = 0
    · simp [processTask, hf, h0, countUpdateCalls, isUpdateCall]
    · simp [processTask, hf, h0, hfo, countUpdateCalls, isUpdateCall]

/-- Witness for C4 at concrete inputs: a task with no custom-field array at
all, and a task whose old field is present with no `enum_value`. -/
theorem valueless_task_never_updated_witness :
    (countUpdateCalls (processTask "OLD" (fun _ => some "201") (fun _ => ⟨true, ""⟩)
          ⟨"T2", "B", none⟩).1 = 0 ∧
        (processTask "OLD" (fun _ => some "201") (fun _ => ⟨true, ""⟩) ⟨"T2", "B", none⟩).2.1 = 0) ∧
      countUpdateCalls (processTask "OLD" (fun _ => some "201") (fun _ => ⟨true, ""⟩)
          ⟨"T3", "C", some [⟨"OLD", none⟩]⟩).1 = 0 ∧
        (processTask "OLD" (fun _ => some "201") (fun _ => ⟨true, ""⟩)
          ⟨"T3", "C", some [⟨"OLD", none⟩]⟩).2.1 = 0 :=
  ⟨valueless_task_never_updated "OLD" (fun _ => some "201") (fun _ => ⟨true, ""⟩)
      ⟨"T2", "B", none⟩ (Or.inl rfl),
   valueless_task_never_updated "OLD" (fun _ => some "201") (fun _ => ⟨true, ""⟩)
      ⟨"T3", "C", some [⟨"OLD", none⟩]⟩
      (Or.inr (Or.inr ⟨[⟨"OLD", none⟩], ⟨"OLD", none⟩, rfl, by decide, rfl⟩))⟩

/-- C7: over any run in which every earlier response is ok and carries a
continuation cursor and the final response is ok and omits the cursor, the
fetch returns the concatenation of the pages in order, the returned length
is the sum of the per-page lengths, exactly one request is issued per
consumed page, and no further request is issued (the result does not
depend on the responses after the cursorless one). -/
theorem fetch_concats_pages_and_stops (front : List Page) (last : Page) (extra : List Page)
    (hfront : ∀ p ∈ front, p.ok = true ∧ hasCursor p = true)
    (hok : last.ok = true) (hlast : hasCursor last = false) :
    getAllProjectTasks (front ++ last :: extra) =
      Except.ok (((front ++ [last]).map Page.data).flatten, front.length + 1) ∧
      (((front ++ [last]).map Page.data).flatten).length =
        ((front ++ [last]).map (fun p => p.data.length)).sum :=
  ⟨getAllProjectTasks_ok front last extra hfront hok hlast, by
    rw [List.length_flatten, List.map_map]
    rfl⟩

/-- Witness for C7: two pages, the first with cursor "x", the second
without; a third response sits behind the cursorless one and is never
requested; two requests, tasks concatenated in page order. -/
theorem fetch_concats_pages_and_stops_witness :
    getAllProjectTasks
        [Page.mk true "" [AsanaTask.mk "1" "a" none] (some "x"),
         Page.mk true "" [AsanaTask.mk "2" "b" none] none,
         Page.mk true "" [AsanaTask.mk "3" "c" none] none] =
      Except.ok ([AsanaTask.mk "1" "a" none, AsanaTask.mk "2" "b" none], 2) := by
  have h := fetch_concats_pages_and_stops
    [Page.mk true "" [AsanaTask.mk "1" "a" none] (some "x")]
    (Page.mk true "" [AsanaTask.mk "2" "b" none] none)
    [Page.mk true "" [AsanaTask.mk "3" "c" none] none]
    (by decide) rfl (by decide)
  simpa using h.1

/-- C8: if any page request during the fetch receives a non-ok response,
the whole fetch aborts with the thrown error carrying the response body;
the tasks of the earlier pages are not returned. -/
theorem fetch_aborts_on_http_failure (front : List Page) (bad : Page) (rest : List Page)
    (hfront : ∀ p ∈ front, p.ok = true ∧ hasCursor p = true)
    (hbad : bad.ok = false) :
    getAllProjectTasks (front ++ bad :: rest) =
      Except.error ("Failed to fetch tasks: " ++ bad.text) :=
  getAllProjectTasks_err front bad rest hfront hbad

/-- Witness for C8: the second response fails with body "boom"; the fetch
returns the error and discards the first page. -/
theorem fetch_aborts_on_http_failure_witness :
    getAllProjectTasks
        ([⟨true, "", [⟨"1", "a", none⟩], some "x"⟩] ++
          ⟨false, "boom", [], none⟩ :: []) =
      Except.error ("Failed to fetch tasks: " ++ "boom") :=
  fetch_aborts_on_http_failure [⟨true, "", [⟨"1", "a", none⟩], some "x"⟩]
    ⟨false, "boom", [], none⟩ [] (by decide) rfl

/-- C9: the fixed 200ms pause happens exactly on the attempted-update path.
For every task, either the driver attempts the update and its trace is the
update call immediately followed by the pause, whatever the outcome of the
PUT; or the task is skipped and its trace contains neither an update call
nor a pause. -/
theorem pause_exactly_after_update (og : String) (m : String → Option String)
    (updResp : String → Resp) (t : AsanaTask) :
    (∃ v, (processTask og m updResp t).1 = [Event.updateCall t.gid v, Event.pause 200]) ∨
      (countUpdateCalls (processTask og m updResp t).1 = 0 ∧
        countPauses (processTask og m updResp t).1 = 0) := by
  rcases hf : t.custom_fields with _ | fields
  · right
    simp [processTask, hf, countUpdateCalls, countPauses, isUpdateCall, isPause]
  · by_cases h0 : fields.length = 0
    · right
      simp [processTask, hf, h0, countUpdateCalls, countPauses, isUpdateCall, isPause]
    · rcases hv : findOldEnum og fields with _ | v
      · right
        simp [processTask, hf, h0, hv, countUpdateCalls, countPauses, isUpdateCall, isPause]
      · by_cases ht : jsTruthyStr (m v)
        · left
          exact ⟨(m v).getD "", by simp [processTask, hf, h0, hv, ht]⟩
        · right
          simp [processTask, hf, h0, hv, ht, countUpdateCalls, countPauses, isUpdateCall, isPause]

theorem find?_append_of_none {α : Type} (p : α → Bool) (l₁ l₂ : List α)
    (h : l₁.find? p = none) : (l₁ ++ l₂).find? p = l₂.find? p := by
  induction l₁ with
  | nil => rfl
  | cons a l ih =>
    rcases hpa : p a with _ | _
    · rw [List.find?_cons_of_neg _ (by simp [hpa])] at h
      rw [List.cons_append, List.find?_cons_of_neg _ (by simp [hpa])]
      exact ih h
    · rw [List.find?_cons_of_pos _ hpa] at h
      exact absurd h (by simp)

/-- C10: when several custom-field entries carry the old field identifier,
only the first one in list order is consulted: the extracted old value is
exactly that entry's selected enum gid, and when that first entry has no
selected value the task is skipped (no update call) even if a later
matching entry carries one. -/
theorem first_matching_field_wins (og : String) (m : String → Option String)
    (updResp : String → Resp) (gid name : String)
    (pre : List CustomField) (f : CustomField) (rest : List CustomField)
    (hpre : ∀ g ∈ pre, g.gid ≠ og) (hf : f.gid = og) :
    findOldEnum og (pre ++ f :: rest) = enumValueGid f ∧
      (enumValueGid f = none →
        countUpdateCalls
          (processTask og m updResp ⟨gid, name, some (pre ++ f :: rest)⟩).1 = 0) := by
  have hfind : (pre ++ f :: rest).find? (fun g => g.gid == og) = some f := by
    rw [find?_append_of_none _ pre _ (List.find?_eq_none.mpr fun g hg => by
      simp [hpre g hg])]
    rw [List.find?_cons_of_pos _ (by simp [hf])]
  have h1 : findOldEnum og (pre ++ f :: rest) = enumValueGid f := by
    simp [findOldEnum, hfind]
  refine ⟨h1, fun hnone => ?_⟩
  have hlen : ¬ (pre ++ f :: rest).length = 0 := by simp
  simp [processTask, hlen, h1, hnone, countUpdateCalls, isUpdateCall]

/-- Witness for C10: the first matching entry has no `enum_value`, a later
matching entry has value "101" mapped by the mapping, yet the driver
skips the task. -/
theorem first_matching_field_wins_witness :
    findOldEnum "OLD" ([⟨"OTHER", some ⟨"999"⟩⟩] ++ ⟨"OLD", none⟩ :: [⟨"OLD", some ⟨"101"⟩⟩]) =
        enumValueGid ⟨"OLD", none⟩ ∧
      countUpdateCalls
        (processTask "OLD" (fun _ => some "201") (fun _ => ⟨true, ""⟩)
          ⟨"T1", "A", some ([⟨"OTHER", some ⟨"999"⟩⟩] ++
            ⟨"OLD", none⟩ :: [⟨"OLD", some ⟨"101"⟩⟩])⟩).1 = 0 :=
  ⟨(first_matching_field_wins "OLD" (fun _ => some "201") (fun _ => ⟨true, ""⟩) "T1" "A"
      [⟨"OTHER", some ⟨"999"⟩⟩] ⟨"OLD", none⟩ [⟨"OLD", some ⟨"101"⟩⟩] (by decide) rfl).1,
   (first_matching_field_wins "OLD" (fun _ => some "201") (fun _ => ⟨true, ""⟩) "T1" "A"
      [⟨"OTHER", some ⟨"999"⟩⟩] ⟨"OLD", none⟩ [⟨"OLD", some ⟨"101"⟩⟩] (by decide) rfl).2 rfl⟩

end Asana
